import Mathlib

/-!
Shallow embedding of the aviary life-cycle simulation of cozy-pet
(src/cozypet.py): the `Bird` entity (lines 151-185), the `AviarySim`
engine (lines 188-302), the slot allocator (SLOTS, lines 50-55 and
`_next_slot`, lines 223-225), and the two progress-fraction computations
of `CozyWindow.draw_occupant` (lines 609 and 657), which are the only
rendering-side computations a claim mentions.

Randomness: every call into Python's `random.Random` that can influence
engine state is modelled by an oracle record carrying one field per draw
site of a single `tick_once` call; `Oracle.valid` constrains each field
to the closed range the source draws from.  Universally quantifying over
valid oracles covers every behaviour of the source RNG.  Draws that only
influence cosmetic data not represented here (colours, wiggle phase,
seeds for derived generators) are omitted.
-/

/-- Life stage of a bird: the string field `stage` of the Python `Bird`
dataclass, which only ever holds "egg", "hatchling" or "adult". -/
inductive Stage where
  | egg
  | hatchling
  | adult
  deriving DecidableEq, Repr

/-- Idle-action name: the strings drawn in `_try_trigger_action`. -/
inductive ActionName where
  | drink
  | preen
  | hop
  | shake
  deriving DecidableEq, Repr

/-- The four fixed slot names of the SLOTS table (lines 50-55). -/
inductive SlotName where
  | front_left
  | front_right
  | back_left
  | back_right
  deriving DecidableEq, Repr, Fintype

/-- Scene scale factor, line 17. -/
def SCALE : Nat := 2

/-- Base coordinates of the slots (lines 32-35) after the S scaling
helper (lines 37-48). -/
def SLOT_BACK_LEFT : Nat × Nat := (60 * SCALE, 92 * SCALE)

def SLOT_BACK_RIGHT : Nat × Nat := (132 * SCALE, 92 * SCALE)

def SLOT_FRONT_LEFT : Nat × Nat := (84 * SCALE, 118 * SCALE)

def SLOT_FRONT_RIGHT : Nat × Nat := (112 * SCALE, 118 * SCALE)

/-- The ordered slot table SLOTS (lines 50-55): name and anchor. -/
def SLOTS : List (SlotName × (Nat × Nat)) :=
  [(SlotName.front_left, SLOT_FRONT_LEFT),
   (SlotName.front_right, SLOT_FRONT_RIGHT),
   (SlotName.back_left, SLOT_BACK_LEFT),
   (SlotName.back_right, SLOT_BACK_RIGHT)]

/-- The Bird dataclass (lines 151-165).  Cosmetic fields that no engine
logic reads (palette, pattern, wiggle_offset, id) are omitted. -/
structure Bird where
  slot_name : SlotName
  slot : Nat × Nat
  stage : Stage := Stage.egg
  age : Nat := 0
  hatch_ticks : Nat := 0
  grow_ticks : Nat := 0
  action : Option ActionName := none
  action_timer : Nat := 0
  action_duration : Nat := 0
  deriving DecidableEq, Repr

/-- First block of Bird.advance (lines 168-174): age increment and the
stage transition chain. -/
def Bird.stageStep (b : Bird) : Bird :=
  let b1 : Bird := { b with age := b.age + 1 }
  if b1.stage = Stage.egg ∧ b1.hatch_ticks ≤ b1.age then
    { b1 with stage := Stage.hatchling, age := 0 }
  else if b1.stage = Stage.hatchling ∧ b1.grow_ticks ≤ b1.age then
    { b1 with stage := Stage.adult, age := 0 }
  else b1

/-- Second block of Bird.advance (lines 175-180): the action-timer
update.  Python's `if self.action:` tests truthiness of the optional
string, which is `isSome` here since action names are nonempty. -/
def Bird.actionStep (b : Bird) : Bird :=
  if b.action.isSome then
    if b.action_duration ≤ b.action_timer + 1 then
      { b with action := none, action_timer := 0, action_duration := 0 }
    else
      { b with action_timer := b.action_timer + 1 }
  else b

/-- Bird.advance (lines 167-180): the two blocks in source order. -/
def Bird.advance (b : Bird) : Bird := b.stageStep.actionStep

/-- Bird.start_action (lines 182-185). -/
def Bird.start_action (b : Bird) (name : ActionName) (duration : Nat) : Bird :=
  { b with action := some name, action_duration := duration, action_timer := 0 }

/-- Engine constants (lines 189-191). -/
def TICKS_PER_DAY : Nat := 10

def SPAWN_DELAY : Nat := 35

def RESET_DELAY : Nat := 55

/-- One tick's worth of RNG draws, one field per draw site that can be
reached inside a single `tick_once` call (including a season reset and
the spawn it performs). -/
structure Oracle where
  spawnHatch : Nat
  spawnGrow : Nat
  resetSpawnHatch : Nat
  resetSpawnGrow : Nat
  resetCooldown : Nat
  actPick : Nat
  actName : Nat
  actDur : Nat
  tickCooldown : Nat
  deriving DecidableEq, Repr

/-- Ranges of the source draws: hatch in [50,90] and grow in [80,130]
(lines 235-236), action duration in [80,120] (line 302), cooldown in
[2400,3200] (line 291). The selection indices actPick and actName are
reduced modulo the relevant list length, so they are unconstrained. -/
def Oracle.valid (o : Oracle) : Prop :=
  50 ≤ o.spawnHatch ∧ o.spawnHatch ≤ 90 ∧
  80 ≤ o.spawnGrow ∧ o.spawnGrow ≤ 130 ∧
  50 ≤ o.resetSpawnHatch ∧ o.resetSpawnHatch ≤ 90 ∧
  80 ≤ o.resetSpawnGrow ∧ o.resetSpawnGrow ≤ 130 ∧
  2400 ≤ o.resetCooldown ∧ o.resetCooldown ≤ 3200 ∧
  80 ≤ o.actDur ∧ o.actDur ≤ 120 ∧
  2400 ≤ o.tickCooldown ∧ o.tickCooldown ≤ 3200

instance (o : Oracle) : Decidable o.valid := by
  unfold Oracle.valid; infer_instance

/-- AviarySim engine state (lines 193-205).  The RNG objects and the
season colour are not represented; their draws enter through `Oracle`. -/
structure AviarySim where
  season : Nat
  day : Nat
  tick : Nat
  spawn_timer : Nat
  reset_timer : Nat
  birds : List Bird
  just_reset : Bool
  next_action : Nat
  deriving DecidableEq, Repr

/-- AviarySim._occupied_slots (lines 220-221); Python builds a set, used
only for membership tests, so a list of names is equivalent. -/
def occupied_slots (birds : List Bird) : List SlotName :=
  birds.map Bird.slot_name

/-- AviarySim._next_slot (lines 223-225): first SLOTS entry whose name is
not occupied, if any. -/
def next_slot (birds : List Bird) : Option (SlotName × (Nat × Nat)) :=
  (SLOTS.filter (fun s => decide (s.1 ∉ occupied_slots birds))).head?

/-- The bird appended by AviarySim._spawn_egg (lines 237-247): fresh egg
with the drawn thresholds and idle action sub-state. -/
def freshBird (name : SlotName) (coord : Nat × Nat) (hatch grow : Nat) : Bird :=
  { slot_name := name, slot := coord, stage := Stage.egg, age := 0,
    hatch_ticks := hatch, grow_ticks := grow,
    action := none, action_timer := 0, action_duration := 0 }

/-- AviarySim._spawn_egg (lines 227-249): no-op when no slot is free;
otherwise append a fresh egg, and reset spawn_timer unless initial. -/
def spawn_egg (initial : Bool) (hatch grow : Nat) (s : AviarySim) : AviarySim :=
  match next_slot s.birds with
  | none => s
  | some (name, coord) =>
    let s1 : AviarySim := { s with birds := s.birds ++ [freshBird name coord hatch grow] }
    if initial then s1 else { s1 with spawn_timer := 0 }

/-- AviarySim.reset_season (lines 207-218): clear counters and birds,
spawn one initial egg, set the just_reset flag and the action cooldown. -/
def reset_season (o : Oracle) (s : AviarySim) : AviarySim :=
  let s1 : AviarySim :=
    { s with day := 1, tick := 0, spawn_timer := 0, reset_timer := 0, birds := [] }
  let s2 := spawn_egg true o.resetSpawnHatch o.resetSpawnGrow s1
  { s2 with just_reset := true, next_action := o.resetCooldown }

/-- AviarySim.__init__ (lines 193-205): fields initialised, then
reset_season is run once. -/
def AviarySim.mk0 (o : Oracle) : AviarySim :=
  reset_season o
    { season := 1, day := 1, tick := 0, spawn_timer := 0, reset_timer := 0,
      birds := [], just_reset := false, next_action := 0 }

/-- Eligibility filter of _try_trigger_action (line 294): stage is
hatchling or adult and no action in flight. -/
def eligible (b : Bird) : Bool :=
  (b.stage == Stage.hatchling || b.stage == Stage.adult) && b.action.isNone

/-- The rng.choice over the stage-dependent action-name list
(lines 298-301), with the uniform draw modelled by an arbitrary index. -/
def chooseAction (b : Bird) (k : Nat) : ActionName :=
  if b.stage == Stage.hatchling then
    match k % 2 with
    | 0 => ActionName.hop
    | _ => ActionName.shake
  else
    match k % 4 with
    | 0 => ActionName.drink
    | 1 => ActionName.preen
    | 2 => ActionName.hop
    | _ => ActionName.shake

/-- AviarySim._try_trigger_action (lines 293-302).  Python filters the
bird objects and mutates the chosen one in place; here the filter runs
over indexed birds so the chosen bird can be updated at its index. -/
def tryTriggerAction (o : Oracle) (birds : List Bird) : List Bird :=
  let choices := birds.enum.filter (fun p => eligible p.2)
  if hne : choices = [] then birds
  else
    let p := choices.get ⟨o.actPick % choices.length,
      Nat.mod_lt _ (List.length_pos.mpr hne)⟩
    birds.set p.1 (p.2.start_action (chooseAction p.2 o.actName) o.actDur)

/-- Lines 253-255 of tick_once: tick increment and day rollover. -/
def tickDay (s : AviarySim) : AviarySim :=
  let s1 : AviarySim := { s with tick := s.tick + 1 }
  if s1.tick % TICKS_PER_DAY = 0 then { s1 with day := s1.day + 1 } else s1

/-- Adult count accumulated in the advance loop (lines 257-261), taken
over the already-advanced birds as in the source. -/
def adultCount (birds : List Bird) : Nat :=
  birds.countP (fun b => b.stage == Stage.adult)

/-- Lines 263-269 of tick_once: spawn-timer progress and spawning. -/
def spawnPhase (o : Oracle) (adults : Nat) (s : AviarySim) : AviarySim :=
  if s.birds.length < 4 then
    if 0 < adults then
      let s1 : AviarySim := { s with spawn_timer := s.spawn_timer + 1 }
      if SPAWN_DELAY ≤ s1.spawn_timer then
        spawn_egg false o.spawnHatch o.spawnGrow s1
      else s1
    else { s with spawn_timer := 0 }
  else s

/-- Lines 271-278 of tick_once: reset-timer progress and season reset;
the Bool is the local season_reset flag. -/
def resetPhase (o : Oracle) (adults : Nat) (s : AviarySim) : AviarySim × Bool :=
  if s.birds.length = 4 ∧ adults = 4 then
    let s1 : AviarySim := { s with reset_timer := s.reset_timer + 1 }
    if RESET_DELAY ≤ s1.reset_timer then
      (reset_season o { s1 with season := s1.season + 1 }, true)
    else (s1, false)
  else ({ s with reset_timer := 0 }, false)

/-- Lines 280-284 of tick_once: action-cooldown countdown and trigger. -/
def actionPhase (o : Oracle) (s : AviarySim) : AviarySim :=
  if 0 < s.next_action then { s with next_action := s.next_action - 1 }
  else { s with birds := tryTriggerAction o s.birds, next_action := o.tickCooldown }

/-- AviarySim.tick_once (lines 251-288): the per-tick transition; returns
the new state and the Bool the method returns (season_reset or the
consumed just_reset flag, lines 286-288). -/
def tick_once (o : Oracle) (s : AviarySim) : AviarySim × Bool :=
  let s1 := tickDay s
  let s2 : AviarySim := { s1 with birds := s1.birds.map Bird.advance }
  let adults := adultCount s2.birds
  let s3 := spawnPhase o adults s2
  let r := resetPhase o adults s3
  let s5 := actionPhase o r.1
  ({ s5 with just_reset := false }, r.2 || s5.just_reset)

/-- States reachable from construction by any sequence of tick_once
calls, each with source-range RNG draws. -/
inductive Reachable : AviarySim → Prop where
  | mk0 (o : Oracle) (ho : o.valid) : Reachable (AviarySim.mk0 o)
  | step (s : AviarySim) (o : Oracle) (ho : o.valid) :
      Reachable s → Reachable (tick_once o s).1

/-- A fixed valid oracle used for concrete runs. -/
def oA : Oracle :=
  { spawnHatch := 50, spawnGrow := 80, resetSpawnHatch := 50,
    resetSpawnGrow := 80, resetCooldown := 2400, actPick := 0,
    actName := 0, actDur := 80, tickCooldown := 2400 }

/-- State after n ticks with the fixed oracle, from construction. -/
def runN (n : Nat) : AviarySim :=
  (fun s => (tick_once oA s).1)^[n] (AviarySim.mk0 oA)

/-- Numeric stage order used to state that stages only move forward:
egg before hatchling before adult. -/
def Stage.rank : Stage → Nat
  | Stage.egg => 0
  | Stage.hatchling => 1
  | Stage.adult => 2

/-- Consistency of the action sub-state of one bird: idle birds carry
zeroed timers, acting birds have strictly positive remaining time. -/
def birdOK (b : Bird) : Prop :=
  (b.action = none → b.action_timer = 0 ∧ b.action_duration = 0) ∧
  (b.action.isSome = true → b.action_timer < b.action_duration)

/-- Engine-level inductive invariant: distinct slot names, per-bird
action consistency, the reset timer strictly below its threshold, and a
nonzero reset timer certifying a full adult population. -/
def EngineInv (s : AviarySim) : Prop :=
  (occupied_slots s.birds).Nodup ∧
  (∀ b ∈ s.birds, birdOK b) ∧
  s.reset_timer < RESET_DELAY ∧
  (s.reset_timer ≠ 0 → s.birds.length = 4 ∧ ∀ b ∈ s.birds, b.stage = Stage.adult)

/-! Bird-level lemmas. -/

theorem stageStep_slot_name (b : Bird) : b.stageStep.slot_name = b.slot_name := by
  unfold Bird.stageStep
  dsimp only
  split
  · rfl
  · split <;> rfl

theorem stageStep_action_fields (b : Bird) :
    b.stageStep.action = b.action ∧ b.stageStep.action_timer = b.action_timer ∧
      b.stageStep.action_duration = b.action_duration := by
  unfold Bird.stageStep
  dsimp only
  split
  · exact ⟨rfl, rfl, rfl⟩
  · split <;> exact ⟨rfl, rfl, rfl⟩

theorem actionStep_stage_age (b : Bird) :
    b.actionStep.stage = b.stage ∧ b.actionStep.age = b.age ∧
      b.actionStep.slot_name = b.slot_name := by
  unfold Bird.actionStep
  split
  · split <;> exact ⟨rfl, rfl, rfl⟩
  · exact ⟨rfl, rfl, rfl⟩

theorem advance_slot_name (b : Bird) : b.advance.slot_name = b.slot_name := by
  unfold Bird.advance
  rw [(actionStep_stage_age _).2.2, stageStep_slot_name]

theorem stageStep_rank (b : Bird) :
    Stage.rank b.stage ≤ Stage.rank b.stageStep.stage ∧
      Stage.rank b.stageStep.stage ≤ Stage.rank b.stage + 1 := by
  unfold Bird.stageStep
  dsimp only
  split
  · rename_i h
    rw [h.1]
    refine ⟨?_, ?_⟩ <;> simp [Stage.rank]
  · split
    · rename_i h' h
      rw [h.1]
      refine ⟨?_, ?_⟩ <;> simp [Stage.rank]
    · exact ⟨Nat.le_refl _, Nat.le_succ _⟩

theorem advance_rank (b : Bird) :
    Stage.rank b.stage ≤ Stage.rank b.advance.stage ∧
      Stage.rank b.advance.stage ≤ Stage.rank b.stage + 1 := by
  unfold Bird.advance
  rw [(actionStep_stage_age _).1]
  exact stageStep_rank b

theorem stageStep_adult {b : Bird} (h : b.stage = Stage.adult) :
    b.stageStep.stage = Stage.adult := by
  unfold Bird.stageStep
  dsimp only
  rw [h]
  simp

theorem advance_adult {b : Bird} (h : b.stage = Stage.adult) :
    b.advance.stage = Stage.adult := by
  unfold Bird.advance
  rw [(actionStep_stage_age _).1]
  exact stageStep_adult h

theorem stageStep_age_zero_iff (b : Bird) :
    b.stageStep.age = 0 ↔ b.stageStep.stage ≠ b.stage := by
  unfold Bird.stageStep
  dsimp only
  split
  · rename_i h
    rw [h.1]
    simp
  · split
    · rename_i h' h
      rw [h.1]
      simp
    · simp

theorem advance_age_zero_iff (b : Bird) :
    b.advance.age = 0 ↔ b.advance.stage ≠ b.stage := by
  unfold Bird.advance
  rw [(actionStep_stage_age _).1, (actionStep_stage_age _).2.1]
  exact stageStep_age_zero_iff b

theorem actionStep_birdOK {b : Bird} (h : birdOK b) : birdOK b.actionStep := by
  unfold Bird.actionStep
  rcases h with ⟨hnone, hsome⟩
  split
  · rename_i hs
    split
    · exact ⟨fun _ => ⟨rfl, rfl⟩, by simp⟩
    · rename_i hlt
      refine ⟨?_, ?_⟩
      · intro hcontra
        simp only at hcontra
        rw [hcontra] at hs
        simp at hs
      · intro _
        simpa using Nat.lt_of_not_le (by simpa using hlt)
  · exact ⟨hnone, hsome⟩

theorem stageStep_birdOK {b : Bird} (h : birdOK b) : birdOK b.stageStep := by
  rcases stageStep_action_fields b with ⟨h1, h2, h3⟩
  unfold birdOK at h ⊢
  rw [h1, h2, h3]
  exact h

theorem advance_birdOK {b : Bird} (h : birdOK b) : birdOK b.advance :=
  actionStep_birdOK (stageStep_birdOK h)

theorem start_action_stage (b : Bird) (n : ActionName) (d : Nat) :
    (b.start_action n d).stage = b.stage := rfl

theorem start_action_slot_name (b : Bird) (n : ActionName) (d : Nat) :
    (b.start_action n d).slot_name = b.slot_name := rfl

theorem start_action_birdOK {d : Nat} (hd : 0 < d) (b : Bird) (n : ActionName) :
    birdOK (b.start_action n d) := by
  refine ⟨fun h => by simp [Bird.start_action] at h, fun _ => ?_⟩
  simpa [Bird.start_action] using hd

/-! Fresh-egg evolution lemmas used for the hatch scenario. -/

theorem iterate_advance_fresh (name : SlotName) (coord : Nat × Nat) (hatch grow : Nat) :
    ∀ k, k < hatch →
      Bird.advance^[k] (freshBird name coord hatch grow) =
        { freshBird name coord hatch grow with age := k } := by
  intro k
  induction k with
  | zero => intro _; rfl
  | succ k ih =>
    intro hk
    rw [Function.iterate_succ_apply', ih (Nat.lt_of_succ_lt hk)]
    unfold Bird.advance Bird.stageStep Bird.actionStep freshBird
    simp [Nat.not_le.mpr hk]

theorem iterate_advance_fresh_hatch (name : SlotName) (coord : Nat × Nat)
    (hatch grow : Nat) (hh : 1 ≤ hatch) :
    Bird.advance^[hatch] (freshBird name coord hatch grow) =
      { freshBird name coord hatch grow with stage := Stage.hatchling, age := 0 } := by
  obtain ⟨k, rfl⟩ : ∃ k, hatch = k + 1 := ⟨hatch - 1, (Nat.succ_pred_eq_of_pos hh).symm⟩
  rw [Function.iterate_succ_apply',
    iterate_advance_fresh name coord _ grow k (Nat.lt_succ_self k)]
  unfold Bird.advance Bird.stageStep Bird.actionStep freshBird
  simp

/-! Slot-allocator lemmas. -/

theorem next_slot_spec (birds : List Bird) :
    next_slot birds =
      (if SlotName.front_left ∉ occupied_slots birds then
        some (SlotName.front_left, SLOT_FRONT_LEFT)
      else if SlotName.front_right ∉ occupied_slots birds then
        some (SlotName.front_right, SLOT_FRONT_RIGHT)
      else if SlotName.back_left ∉ occupied_slots birds then
        some (SlotName.back_left, SLOT_BACK_LEFT)
      else if SlotName.back_right ∉ occupied_slots birds then
        some (SlotName.back_right, SLOT_BACK_RIGHT)
      else none) := by
  by_cases h1 : SlotName.front_left ∈ occupied_slots birds <;>
    by_cases h2 : SlotName.front_right ∈ occupied_slots birds <;>
      by_cases h3 : SlotName.back_left ∈ occupied_slots birds <;>
        by_cases h4 : SlotName.back_right ∈ occupied_slots birds <;>
          simp [next_slot, SLOTS, h1, h2, h3, h4]

theorem next_slot_none_iff (birds : List Bird) :
    next_slot birds = none ↔ ∀ n : SlotName, n ∈ occupied_slots birds := by
  rw [next_slot_spec]
  constructor
  · intro h n
    by_cases h1 : SlotName.front_left ∈ occupied_slots birds <;>
      by_cases h2 : SlotName.front_right ∈ occupied_slots birds <;>
        by_cases h3 : SlotName.back_left ∈ occupied_slots birds <;>
          by_cases h4 : SlotName.back_right ∈ occupied_slots birds <;>
            simp [h1, h2, h3, h4] at h <;> cases n <;> assumption
  · intro h
    simp [h SlotName.front_left, h SlotName.front_right,
      h SlotName.back_left, h SlotName.back_right]

theorem next_slot_fresh {birds : List Bird} {name : SlotName} {coord : Nat × Nat}
    (h : next_slot birds = some (name, coord)) :
    name ∉ occupied_slots birds ∧ (name, coord) ∈ SLOTS := by
  rw [next_slot_spec] at h
  by_cases h1 : SlotName.front_left ∈ occupied_slots birds <;>
    by_cases h2 : SlotName.front_right ∈ occupied_slots birds <;>
      by_cases h3 : SlotName.back_left ∈ occupied_slots birds <;>
        by_cases h4 : SlotName.back_right ∈ occupied_slots birds <;>
          simp [h1, h2, h3, h4] at h <;>
            (obtain ⟨rfl, rfl⟩ := h; simp [SLOTS]; assumption)

/-! Engine-level helper lemmas: reset, spawn, and phase bookkeeping. -/

theorem reset_season_eq (o : Oracle) (s : AviarySim) :
    reset_season o s =
      { season := s.season, day := 1, tick := 0, spawn_timer := 0, reset_timer := 0,
        birds := [freshBird SlotName.front_left SLOT_FRONT_LEFT
          o.resetSpawnHatch o.resetSpawnGrow],
        just_reset := true, next_action := o.resetCooldown } := rfl

theorem mk0_eq (o : Oracle) :
    AviarySim.mk0 o =
      { season := 1, day := 1, tick := 0, spawn_timer := 0, reset_timer := 0,
        birds := [freshBird SlotName.front_left SLOT_FRONT_LEFT
          o.resetSpawnHatch o.resetSpawnGrow],
        just_reset := true, next_action := o.resetCooldown } := rfl

theorem freshBird_birdOK (name : SlotName) (coord : Nat × Nat) (h g : Nat) :
    birdOK (freshBird name coord h g) :=
  ⟨fun _ => ⟨rfl, rfl⟩, fun hco => by simp [freshBird] at hco⟩

theorem spawn_egg_fields (initial : Bool) (h g : Nat) (s : AviarySim) :
    (spawn_egg initial h g s).season = s.season ∧
    (spawn_egg initial h g s).day = s.day ∧
    (spawn_egg initial h g s).tick = s.tick ∧
    (spawn_egg initial h g s).reset_timer = s.reset_timer ∧
    (spawn_egg initial h g s).just_reset = s.just_reset ∧
    (spawn_egg initial h g s).next_action = s.next_action := by
  unfold spawn_egg
  cases hns : next_slot s.birds with
  | none => exact ⟨rfl, rfl, rfl, rfl, rfl, rfl⟩
  | some v =>
    obtain ⟨name, coord⟩ := v
    dsimp only
    split <;> exact ⟨rfl, rfl, rfl, rfl, rfl, rfl⟩

theorem spawn_egg_birds (initial : Bool) (h g : Nat) (s : AviarySim) :
    (spawn_egg initial h g s).birds = s.birds ∨
    ∃ name coord,
      name ∉ occupied_slots s.birds ∧
      (spawn_egg initial h g s).birds = s.birds ++ [freshBird name coord h g] := by
  unfold spawn_egg
  cases hns : next_slot s.birds with
  | none => exact Or.inl rfl
  | some v =>
    obtain ⟨name, coord⟩ := v
    right
    refine ⟨name, coord, (next_slot_fresh hns).1, ?_⟩
    dsimp only
    split <;> rfl

theorem spawnPhase_fields (o : Oracle) (a : Nat) (s : AviarySim) :
    (spawnPhase o a s).season = s.season ∧
    (spawnPhase o a s).day = s.day ∧
    (spawnPhase o a s).tick = s.tick ∧
    (spawnPhase o a s).reset_timer = s.reset_timer ∧
    (spawnPhase o a s).just_reset = s.just_reset ∧
    (spawnPhase o a s).next_action = s.next_action := by
  unfold spawnPhase
  split
  · split
    · dsimp only
      split
      · exact spawn_egg_fields false o.spawnHatch o.spawnGrow _
      · exact ⟨rfl, rfl, rfl, rfl, rfl, rfl⟩
    · exact ⟨rfl, rfl, rfl, rfl, rfl, rfl⟩
  · exact ⟨rfl, rfl, rfl, rfl, rfl, rfl⟩

theorem spawnPhase_birds (o : Oracle) (a : Nat) (s : AviarySim) :
    (spawnPhase o a s).birds = s.birds ∨
    ∃ name coord,
      name ∉ occupied_slots s.birds ∧
      (spawnPhase o a s).birds =
        s.birds ++ [freshBird name coord o.spawnHatch o.spawnGrow] := by
  unfold spawnPhase
  split
  · split
    · dsimp only
      split
      · exact spawn_egg_birds false o.spawnHatch o.spawnGrow _
      · exact Or.inl rfl
    · exact Or.inl rfl
  · exact Or.inl rfl

theorem tickDay_fields (s : AviarySim) :
    (tickDay s).birds = s.birds ∧
    (tickDay s).season = s.season ∧
    (tickDay s).spawn_timer = s.spawn_timer ∧
    (tickDay s).reset_timer = s.reset_timer ∧
    (tickDay s).just_reset = s.just_reset ∧
    (tickDay s).next_action = s.next_action := by
  unfold tickDay
  dsimp only
  split <;> exact ⟨rfl, rfl, rfl, rfl, rfl, rfl⟩

theorem adultCount_append_egg (l : List Bird) (nb : Bird) (h : nb.stage = Stage.egg) :
    adultCount (l ++ [nb]) = adultCount l := by
  simp [adultCount, List.countP_append, List.countP_cons, h]

theorem adultCount_spawnPhase (o : Oracle) (a : Nat) (s : AviarySim) :
    adultCount (spawnPhase o a s).birds = adultCount s.birds := by
  rcases spawnPhase_birds o a s with h | ⟨name, coord, hn, h⟩
  · rw [h]
  · rw [h, adultCount_append_egg]
    rfl

theorem adultCount_eq_length {l : List Bird} (h : adultCount l = l.length) :
    ∀ b ∈ l, b.stage = Stage.adult := by
  intro b hb
  have := List.countP_eq_length.mp h b hb
  simpa using this

theorem adultCount_of_all_adult {l : List Bird} (h : ∀ b ∈ l, b.stage = Stage.adult) :
    adultCount l = l.length :=
  List.countP_eq_length.mpr fun b hb => by simpa using h b hb

theorem tryTriggerAction_rel (o : Oracle) (birds : List Bird) :
    tryTriggerAction o birds = birds ∨
    ∃ i b, birds[i]? = some b ∧ eligible b = true ∧
      tryTriggerAction o birds =
        birds.set i (b.start_action (chooseAction b o.actName) o.actDur) := by
  unfold tryTriggerAction
  dsimp only
  split
  · exact Or.inl rfl
  · rename_i hne
    right
    have hget := List.get_mem (birds.enum.filter (fun p => eligible p.2))
      (o.actPick % (birds.enum.filter (fun p => eligible p.2)).length)
      (Nat.mod_lt _ (List.length_pos.mpr hne))
    have hmem := (List.mem_filter.mp hget).1
    have helig := (List.mem_filter.mp hget).2
    refine ⟨_, _, ?_, by simpa using helig, rfl⟩
    exact List.mem_enum_iff_getElem?.mp hmem

theorem set_self_of_getElem? {α : Type} {l : List α} {i : Nat} {a : α}
    (h : l[i]? = some a) : l.set i a = l := by
  apply List.ext_getElem?
  intro j
  rw [List.getElem?_set]
  by_cases hij : i = j
  · subst hij
    have hlt : i < l.length := by
      rcases List.getElem?_eq_some.mp h with ⟨hl, _⟩
      exact hl
    simp [hlt, h.symm]
  · simp [hij]

theorem tryTriggerAction_occupied (o : Oracle) (birds : List Bird) :
    occupied_slots (tryTriggerAction o birds) = occupied_slots birds := by
  rcases tryTriggerAction_rel o birds with h | ⟨i, b, hib, he, h⟩
  · rw [h]
  · rw [h]
    unfold occupied_slots
    rw [List.map_set]
    apply set_self_of_getElem?
    rw [List.getElem?_map, hib]
    rfl

theorem tryTriggerAction_length (o : Oracle) (birds : List Bird) :
    (tryTriggerAction o birds).length = birds.length := by
  rcases tryTriggerAction_rel o birds with h | ⟨i, b, hib, he, h⟩
  · rw [h]
  · rw [h, List.length_set]

theorem tryTriggerAction_mem (o : Oracle) (birds : List Bird) :
    ∀ b ∈ tryTriggerAction o birds,
      b ∈ birds ∨ ∃ b0 ∈ birds, ∃ n, b = b0.start_action n o.actDur := by
  rcases tryTriggerAction_rel o birds with h | ⟨i, b0, hib, he, h⟩
  · rw [h]
    exact fun b hb => Or.inl hb
  · rw [h]
    intro b hb
    rcases List.mem_or_eq_of_mem_set hb with hb' | rfl
    · exact Or.inl hb'
    · right
      have : b0 ∈ birds := by
        rcases List.getElem?_eq_some.mp hib with ⟨hl, hg⟩
        exact hg ▸ List.getElem_mem hl
      exact ⟨b0, this, _, rfl⟩

theorem actionPhase_fields (o : Oracle) (s : AviarySim) :
    (actionPhase o s).season = s.season ∧
    (actionPhase o s).day = s.day ∧
    (actionPhase o s).tick = s.tick ∧
    (actionPhase o s).spawn_timer = s.spawn_timer ∧
    (actionPhase o s).reset_timer = s.reset_timer ∧
    (actionPhase o s).just_reset = s.just_reset := by
  unfold actionPhase
  split <;> exact ⟨rfl, rfl, rfl, rfl, rfl, rfl⟩

theorem actionPhase_occupied (o : Oracle) (s : AviarySim) :
    occupied_slots (actionPhase o s).birds = occupied_slots s.birds := by
  unfold actionPhase
  split
  · rfl
  · exact tryTriggerAction_occupied o s.birds

theorem actionPhase_length (o : Oracle) (s : AviarySim) :
    (actionPhase o s).birds.length = s.birds.length := by
  unfold actionPhase
  split
  · rfl
  · exact tryTriggerAction_length o s.birds

theorem actionPhase_mem (o : Oracle) (s : AviarySim) :
    ∀ b ∈ (actionPhase o s).birds,
      b ∈ s.birds ∨ ∃ b0 ∈ s.birds, ∃ n, b = b0.start_action n o.actDur := by
  unfold actionPhase
  split
  · exact fun b hb => Or.inl hb
  · exact tryTriggerAction_mem o s.birds

theorem valid_actDur_pos {o : Oracle} (ho : o.valid) : 0 < o.actDur := by
  obtain ⟨-, -, -, -, -, -, -, -, -, -, hd, -⟩ := ho
  omega

theorem actionPhase_birdOK {o : Oracle} (ho : o.valid) {s : AviarySim}
    (h : ∀ b ∈ s.birds, birdOK b) : ∀ b ∈ (actionPhase o s).birds, birdOK b := by
  intro b hb
  rcases actionPhase_mem o s b hb with hb' | ⟨b0, hb0, n, rfl⟩
  · exact h b hb'
  · exact start_action_birdOK (valid_actDur_pos ho) b0 n

theorem actionPhase_all_adult {o : Oracle} {s : AviarySim}
    (h : ∀ b ∈ s.birds, b.stage = Stage.adult) :
    ∀ b ∈ (actionPhase o s).birds, b.stage = Stage.adult := by
  intro b hb
  rcases actionPhase_mem o s b hb with hb' | ⟨b0, hb0, n, rfl⟩
  · exact h b hb'
  · rw [start_action_stage]
    exact h b0 hb0

theorem resetPhase_cases (o : Oracle) (a : Nat) (s : AviarySim) :
    (¬ (s.birds.length = 4 ∧ a = 4) ∧
      resetPhase o a s = ({ s with reset_timer := 0 }, false)) ∨
    ((s.birds.length = 4 ∧ a = 4) ∧ s.reset_timer + 1 < RESET_DELAY ∧
      resetPhase o a s = ({ s with reset_timer := s.reset_timer + 1 }, false)) ∨
    ((s.birds.length = 4 ∧ a = 4) ∧ RESET_DELAY ≤ s.reset_timer + 1 ∧
      resetPhase o a s =
        (reset_season o
          { s with season := s.season + 1, reset_timer := s.reset_timer + 1 }, true)) := by
  unfold resetPhase
  split
  · rename_i hc
    dsimp only
    split
    · rename_i hge
      exact Or.inr (Or.inr ⟨hc, hge, rfl⟩)
    · rename_i hlt
      exact Or.inr (Or.inl ⟨hc, Nat.lt_of_not_le hlt, rfl⟩)
  · rename_i hc
    exact Or.inl ⟨hc, rfl⟩

theorem occupied_map_advance (l : List Bird) :
    occupied_slots (l.map Bird.advance) = occupied_slots l := by
  unfold occupied_slots
  rw [List.map_map]
  exact List.map_congr_left fun b _ => advance_slot_name b

/-! The inductive invariant: established at construction, preserved by
every tick with source-range draws. -/

theorem post_inv_of {o : Oracle} (ho : o.valid) (t : AviarySim)
    (hnd : (occupied_slots t.birds).Nodup)
    (hok : ∀ b ∈ t.birds, birdOK b)
    (hlt : t.reset_timer < RESET_DELAY)
    (hz : t.reset_timer ≠ 0 →
      t.birds.length = 4 ∧ ∀ b ∈ t.birds, b.stage = Stage.adult) :
    EngineInv { actionPhase o t with just_reset := false } := by
  refine ⟨?_, ?_, ?_, ?_⟩
  · show (occupied_slots (actionPhase o t).birds).Nodup
    rw [actionPhase_occupied]
    exact hnd
  · exact actionPhase_birdOK ho hok
  · show (actionPhase o t).reset_timer < RESET_DELAY
    rw [(actionPhase_fields o t).2.2.2.2.1]
    exact hlt
  · intro hne
    have hne' : t.reset_timer ≠ 0 := by
      rw [← (actionPhase_fields o t).2.2.2.2.1]
      exact hne
    obtain ⟨hl4, hall⟩ := hz hne'
    refine ⟨?_, ?_⟩
    · show (actionPhase o t).birds.length = 4
      rw [actionPhase_length]
      exact hl4
    · exact actionPhase_all_adult hall

theorem mk0_inv {o : Oracle} : EngineInv (AviarySim.mk0 o) := by
  rw [mk0_eq]
  refine ⟨?_, ?_, ?_, ?_⟩
  · simp [occupied_slots]
  · intro b hb
    rw [List.mem_singleton] at hb
    subst hb
    exact freshBird_birdOK _ _ _ _
  · show (0 : Nat) < RESET_DELAY
    decide
  · exact fun h => absurd rfl h

theorem tick_once_inv {o : Oracle} (ho : o.valid) {s : AviarySim} (hs : EngineInv s) :
    EngineInv (tick_once o s).1 := by
  obtain ⟨hnd, hok, hrlt, hrz⟩ := hs
  have h1 := tickDay_fields s
  set s1 := tickDay s with hs1
  set s2 : AviarySim := { s1 with birds := s1.birds.map Bird.advance } with hs2
  set a := adultCount s2.birds with ha
  set s3 := spawnPhase o a s2 with hs3
  have hocc2 : occupied_slots s2.birds = occupied_slots s.birds := by
    show occupied_slots (s1.birds.map Bird.advance) = _
    rw [occupied_map_advance, h1.1]
  have hok2 : ∀ b ∈ s2.birds, birdOK b := by
    intro b hb
    rcases List.mem_map.mp hb with ⟨b0, hb0, rfl⟩
    have hb0' : b0 ∈ s.birds := by rw [← h1.1]; exact hb0
    exact advance_birdOK (hok b0 hb0')
  have h3f := spawnPhase_fields o a s2
  have hrt3 : s3.reset_timer = s.reset_timer := by
    have e2 : s2.reset_timer = s.reset_timer := h1.2.2.2.1
    rw [h3f.2.2.2.1, e2]
  have hnd3 : (occupied_slots s3.birds).Nodup := by
    rcases spawnPhase_birds o a s2 with h | ⟨name, coord, hn, h⟩
    · rw [show s3.birds = s2.birds from h, hocc2]
      exact hnd
    · rw [show s3.birds = s2.birds ++ [freshBird name coord o.spawnHatch o.spawnGrow] from h]
      have hsplit : occupied_slots
          (s2.birds ++ [freshBird name coord o.spawnHatch o.spawnGrow]) =
          occupied_slots s2.birds ++ [name] := by
        unfold occupied_slots
        rw [List.map_append]
        rfl
      rw [hsplit, hocc2]
      rw [hocc2] at hn
      exact List.Nodup.append hnd (List.nodup_singleton _) (List.disjoint_singleton.mpr hn)
  have hok3 : ∀ b ∈ s3.birds, birdOK b := by
    rcases spawnPhase_birds o a s2 with h | ⟨name, coord, hn, h⟩
    · rw [show s3.birds = s2.birds from h]
      exact hok2
    · rw [show s3.birds = s2.birds ++ [freshBird name coord o.spawnHatch o.spawnGrow] from h]
      intro b hb
      rcases List.mem_append.mp hb with hb' | hb'
      · exact hok2 b hb'
      · rw [List.mem_singleton.mp hb']
        exact freshBird_birdOK _ _ _ _
  have hcnt3 : adultCount s3.birds = a := adultCount_spawnPhase o a s2
  have key : (tick_once o s).1 =
      { actionPhase o (resetPhase o a s3).1 with just_reset := false } := rfl
  rw [key]
  rcases resetPhase_cases o a s3 with ⟨hc, hre⟩ | ⟨hc, hlt2, hre⟩ | ⟨hc, hge, hre⟩
  · rw [hre]
    refine post_inv_of ho _ hnd3 hok3 ?_ (fun h => absurd rfl h)
    show (0 : Nat) < RESET_DELAY
    decide
  · rw [hre]
    refine post_inv_of ho _ hnd3 hok3 hlt2 (fun _ => ⟨hc.1, ?_⟩)
    exact adultCount_eq_length (by rw [hcnt3, hc.2, hc.1])
  · rw [hre]
    rw [reset_season_eq]
    refine post_inv_of ho _ ?_ ?_ ?_ (fun h => absurd rfl h)
    · simp [occupied_slots]
    · intro b hb
      rw [List.mem_singleton] at hb
      subst hb
      exact freshBird_birdOK _ _ _ _
    · show (0 : Nat) < RESET_DELAY
      decide

theorem reachable_inv {s : AviarySim} (h : Reachable s) : EngineInv s := by
  induction h with
  | mk0 o ho => exact mk0_inv
  | step s o ho _ ih => exact tick_once_inv ho ih

/-! Claim theorems. -/

/-- C1: for every state of AviarySim reachable from construction by any
sequence of tick_once calls, the population size satisfies
0 ≤ |birds| ≤ 4 and the slot_name values of the live birds are pairwise
distinct. -/
theorem capacity_invariant {s : AviarySim} (h : Reachable s) :
    0 ≤ s.birds.length ∧ s.birds.length ≤ 4 ∧
      (s.birds.map Bird.slot_name).Nodup := by
  obtain ⟨hnd, -, -, -⟩ := reachable_inv h
  refine ⟨Nat.zero_le _, ?_, hnd⟩
  have hcard : Fintype.card SlotName = 4 := rfl
  have hle := List.Nodup.length_le_card hnd
  rw [hcard] at hle
  simpa [occupied_slots] using hle

/-- Witness: capacity_invariant applied at the constructed state. -/
theorem capacity_invariant_witness :
    0 ≤ (AviarySim.mk0 oA).birds.length ∧ (AviarySim.mk0 oA).birds.length ≤ 4 ∧
      ((AviarySim.mk0 oA).birds.map Bird.slot_name).Nodup :=
  capacity_invariant (Reachable.mk0 oA (by decide))

/-- C10: in every reachable state the action sub-state fields are
mutually consistent: no action means both timers are zero, and an
in-flight action has its elapsed timer strictly below its duration. -/
theorem action_substate_consistency {s : AviarySim} (h : Reachable s) :
    ∀ b ∈ s.birds,
      (b.action = none → b.action_timer = 0 ∧ b.action_duration = 0) ∧
      (∀ a : ActionName, b.action = some a → b.action_timer < b.action_duration) := by
  obtain ⟨-, hok, -, -⟩ := reachable_inv h
  intro b hb
  obtain ⟨h1, h2⟩ := hok b hb
  refine ⟨h1, fun a ha => h2 ?_⟩
  rw [ha]
  rfl

/-- Witness: action_substate_consistency applied at the constructed
state's single fresh egg. -/
theorem action_substate_consistency_witness :
    (freshBird SlotName.front_left SLOT_FRONT_LEFT 50 80).action_timer = 0 ∧
    (freshBird SlotName.front_left SLOT_FRONT_LEFT 50 80).action_duration = 0 :=
  (action_substate_consistency (Reachable.mk0 oA (by decide))
    (freshBird SlotName.front_left SLOT_FRONT_LEFT 50 80) (by decide)).1 rfl

/-- C4: immediately after any season reset, including the one performed
at construction: population is exactly one fresh egg of age 0, tick is
0, day is 1, spawn_timer is 0 and reset_timer is 0. -/
theorem reset_completeness (o : Oracle) (s : AviarySim) :
    ((reset_season o s).birds.length = 1 ∧
      (∀ b ∈ (reset_season o s).birds, b.stage = Stage.egg ∧ b.age = 0) ∧
      (reset_season o s).tick = 0 ∧ (reset_season o s).day = 1 ∧
      (reset_season o s).spawn_timer = 0 ∧ (reset_season o s).reset_timer = 0) ∧
    ((AviarySim.mk0 o).birds.length = 1 ∧
      (∀ b ∈ (AviarySim.mk0 o).birds, b.stage = Stage.egg ∧ b.age = 0) ∧
      (AviarySim.mk0 o).tick = 0 ∧ (AviarySim.mk0 o).day = 1 ∧
      (AviarySim.mk0 o).spawn_timer = 0 ∧ (AviarySim.mk0 o).reset_timer = 0) := by
  rw [reset_season_eq, mk0_eq]
  refine ⟨⟨rfl, ?_, rfl, rfl, rfl, rfl⟩, rfl, ?_, rfl, rfl, rfl, rfl⟩ <;>
    · intro b hb
      rw [List.mem_singleton] at hb
      subst hb
      exact ⟨rfl, rfl⟩

/-- C3: stages only follow egg, then hatchling, then adult, never
regress, age is reset to 0 exactly when a transition happens, adult is
terminal, and a fresh egg with threshold hatch stays an egg for the
first hatch − 1 advance calls and is a hatchling of age 0 after the
hatch-th. -/
theorem stage_monotonicity :
    (∀ b : Bird, Stage.rank b.stage ≤ Stage.rank b.advance.stage ∧
      Stage.rank b.advance.stage ≤ Stage.rank b.stage + 1) ∧
    (∀ b : Bird, b.advance.age = 0 ↔ b.advance.stage ≠ b.stage) ∧
    (∀ b : Bird, b.stage = Stage.adult → b.advance.stage = Stage.adult) ∧
    (∀ (name : SlotName) (coord : Nat × Nat) (hatch grow : Nat), 1 ≤ hatch →
      (∀ k, k < hatch →
        (Bird.advance^[k] (freshBird name coord hatch grow)).stage = Stage.egg ∧
        (Bird.advance^[k] (freshBird name coord hatch grow)).age = k) ∧
      (Bird.advance^[hatch] (freshBird name coord hatch grow)).stage = Stage.hatchling ∧
      (Bird.advance^[hatch] (freshBird name coord hatch grow)).age = 0) := by
  refine ⟨advance_rank, advance_age_zero_iff, fun b => advance_adult, ?_⟩
  intro name coord hatch grow hh
  refine ⟨?_, ?_, ?_⟩
  · intro k hk
    rw [iterate_advance_fresh name coord hatch grow k hk]
    exact ⟨rfl, rfl⟩
  · rw [iterate_advance_fresh_hatch name coord hatch grow hh]
  · rw [iterate_advance_fresh_hatch name coord hatch grow hh]

/-- Witness: stage_monotonicity on a fresh egg with threshold 50. -/
theorem stage_monotonicity_witness :
    (Bird.advance^[50] (freshBird SlotName.front_left SLOT_FRONT_LEFT 50 80)).stage =
      Stage.hatchling ∧
    (Bird.advance^[50] (freshBird SlotName.front_left SLOT_FRONT_LEFT 50 80)).age = 0 ∧
    (freshBird SlotName.front_left SLOT_FRONT_LEFT 50 80).advance.stage = Stage.egg :=
  ⟨(stage_monotonicity.2.2.2 SlotName.front_left SLOT_FRONT_LEFT 50 80 (by decide)).2.1,
   (stage_monotonicity.2.2.2 SlotName.front_left SLOT_FRONT_LEFT 50 80 (by decide)).2.2,
   ((stage_monotonicity.2.2.2 SlotName.front_left SLOT_FRONT_LEFT 50 80
      (by decide)).1 1 (by decide)).1⟩

/-- C7: the slot allocator returns the first unoccupied slot in the fixed
priority order front_left, front_right, back_left, back_right, and
returns none exactly when all four slots are occupied. -/
theorem slot_allocator_spec (birds : List Bird) :
    (next_slot birds =
      (if SlotName.front_left ∉ occupied_slots birds then
        some (SlotName.front_left, SLOT_FRONT_LEFT)
      else if SlotName.front_right ∉ occupied_slots birds then
        some (SlotName.front_right, SLOT_FRONT_RIGHT)
      else if SlotName.back_left ∉ occupied_slots birds then
        some (SlotName.back_left, SLOT_BACK_LEFT)
      else if SlotName.back_right ∉ occupied_slots birds then
        some (SlotName.back_right, SLOT_BACK_RIGHT)
      else none)) ∧
    (next_slot birds = none ↔ ∀ n : SlotName, n ∈ occupied_slots birds) :=
  ⟨next_slot_spec birds, next_slot_none_iff birds⟩

/-- C8: calling the spawn operation in a state where all four slots are
occupied is a silent no-op: the state is returned unchanged and the
function is total, so no error propagates. -/
theorem spawn_full_noop (initial : Bool) (hatch grow : Nat) (s : AviarySim)
    (hfull : ∀ n : SlotName, n ∈ occupied_slots s.birds) :
    spawn_egg initial hatch grow s = s := by
  unfold spawn_egg
  rw [(next_slot_none_iff s.birds).mpr hfull]

/-- A concrete fully occupied engine state. -/
def fullState : AviarySim :=
  { season := 1, day := 1, tick := 0, spawn_timer := 0, reset_timer := 0,
    birds :=
      [freshBird SlotName.front_left SLOT_FRONT_LEFT 50 80,
       freshBird SlotName.front_right SLOT_FRONT_RIGHT 50 80,
       freshBird SlotName.back_left SLOT_BACK_LEFT 50 80,
       freshBird SlotName.back_right SLOT_BACK_RIGHT 50 80],
    just_reset := false, next_action := 0 }

/-- Witness: spawn_full_noop on the fully occupied state. -/
theorem spawn_full_noop_witness : spawn_egg false 50 80 fullState = fullState :=
  spawn_full_noop false 50 80 fullState (by decide)

/-- Progress fraction of an in-flight action, as computed in
CozyWindow.draw_occupant line 609: action_timer over max 1
action_duration when an action is set, else 0.  Python float division is
modelled over the rationals; whether the division is by zero depends
only on the denominator, which is identical. -/
def action_prog (b : Bird) : ℚ :=
  if b.action.isSome then
    (b.action_timer : ℚ) / ((max 1 b.action_duration : Nat) : ℚ)
  else 0

/-- Hatch progress of an egg, as computed in CozyWindow.draw_occupant
line 657: min 1 of age over max 1 hatch_ticks. -/
def hatch_progress (b : Bird) : ℚ :=
  min 1 ((b.age : ℚ) / ((max 1 b.hatch_ticks : Nat) : ℚ))

/-- C9: in both progress fractions the denominator is guarded with max 1,
so it is at least 1 and in particular nonzero, even when the duration or
hatch threshold is unset (zero); the division in action_prog is a
genuine division by that nonzero denominator. -/
theorem progress_denominator_guard (b : Bird) :
    1 ≤ ((max 1 b.action_duration : Nat) : ℚ) ∧
    1 ≤ ((max 1 b.hatch_ticks : Nat) : ℚ) ∧
    ((max 1 b.action_duration : Nat) : ℚ) ≠ 0 ∧
    ((max 1 b.hatch_ticks : Nat) : ℚ) ≠ 0 ∧
    (b.action.isSome = true →
      action_prog b * ((max 1 b.action_duration : Nat) : ℚ) = (b.action_timer : ℚ)) ∧
    hatch_progress b * ((max 1 b.hatch_ticks : Nat) : ℚ) ≤ (max 1 b.hatch_ticks : Nat) := by
  have h1 : (1 : ℚ) ≤ ((max 1 b.action_duration : Nat) : ℚ) := by
    exact_mod_cast Nat.le_max_left 1 b.action_duration
  have h2 : (1 : ℚ) ≤ ((max 1 b.hatch_ticks : Nat) : ℚ) := by
    exact_mod_cast Nat.le_max_left 1 b.hatch_ticks
  have hne1 : ((max 1 b.action_duration : Nat) : ℚ) ≠ 0 := by positivity
  have hne2 : ((max 1 b.hatch_ticks : Nat) : ℚ) ≠ 0 := by positivity
  refine ⟨h1, h2, hne1, hne2, ?_, ?_⟩
  · intro hs
    rw [action_prog, if_pos hs, div_mul_cancel₀ _ hne1]
  · have hpos : (0 : ℚ) < ((max 1 b.hatch_ticks : Nat) : ℚ) := by positivity
    have : hatch_progress b ≤ 1 := min_le_left _ _
    calc hatch_progress b * ((max 1 b.hatch_ticks : Nat) : ℚ)
        ≤ 1 * ((max 1 b.hatch_ticks : Nat) : ℚ) := by
          exact mul_le_mul_of_nonneg_right this (le_of_lt hpos)
      _ = ((max 1 b.hatch_ticks : Nat) : ℚ) := one_mul _

/-- A concrete bird holding an action with unset (zero) duration. -/
def actingBird : Bird :=
  { freshBird SlotName.front_left SLOT_FRONT_LEFT 50 80 with
    action := some ActionName.hop, action_timer := 3, action_duration := 0 }

/-- Witness: progress_denominator_guard at a bird whose action duration
is zero; the guarded denominator is 1, so the fraction is well defined. -/
theorem progress_denominator_guard_witness :
    action_prog actingBird * ((max 1 actingBird.action_duration : Nat) : ℚ) =
      (actingBird.action_timer : ℚ) :=
  (progress_denominator_guard actingBird).2.2.2.2.1 rfl

theorem chooseAction_hatchling {b : Bird} (h : b.stage = Stage.hatchling) (k : Nat) :
    chooseAction b k = ActionName.hop ∨ chooseAction b k = ActionName.shake := by
  unfold chooseAction
  rw [if_pos (by simp [h])]
  cases hm : k % 2 with
  | zero => exact Or.inl rfl
  | succ n => exact Or.inr rfl

theorem chooseAction_mem (b : Bird) (k : Nat) :
    chooseAction b k = ActionName.drink ∨ chooseAction b k = ActionName.preen ∨
    chooseAction b k = ActionName.hop ∨ chooseAction b k = ActionName.shake := by
  unfold chooseAction
  split
  · cases hm : k % 2 with
    | zero => exact Or.inr (Or.inr (Or.inl rfl))
    | succ n => exact Or.inr (Or.inr (Or.inr rfl))
  · cases hm : k % 4 with
    | zero => exact Or.inl rfl
    | succ n =>
      cases n with
      | zero => exact Or.inr (Or.inl rfl)
      | succ m =>
        cases m with
        | zero => exact Or.inr (Or.inr (Or.inl rfl))
        | succ p => exact Or.inr (Or.inr (Or.inr rfl))

/-- C6: whenever the action trigger changes an entry of the bird list,
the previous bird there was not an egg and had no action in flight, and
the started action is hop or shake for a hatchling and one of the four
known actions otherwise; in particular a hatchling never receives drink
or preen. -/
theorem action_eligibility (o : Oracle) (birds : List Bird) (i : Nat)
    (hch : (tryTriggerAction o birds)[i]? ≠ birds[i]?) :
    ∃ b b', birds[i]? = some b ∧ (tryTriggerAction o birds)[i]? = some b' ∧
      b.stage ≠ Stage.egg ∧ b.action = none ∧
      (b.stage = Stage.hatchling →
        b'.action = some ActionName.hop ∨ b'.action = some ActionName.shake) ∧
      (b'.action = some ActionName.drink ∨ b'.action = some ActionName.preen ∨
        b'.action = some ActionName.hop ∨ b'.action = some ActionName.shake) := by
  rcases tryTriggerAction_rel o birds with h | ⟨j, b0, hj, he, h⟩
  · rw [h] at hch
    exact absurd rfl hch
  · rw [h] at hch ⊢
    by_cases hij : j = i
    · subst hij
      have hjlt : j < birds.length := (List.getElem?_eq_some.mp hj).1
      have hset : (birds.set j (b0.start_action (chooseAction b0 o.actName) o.actDur))[j]? =
          some (b0.start_action (chooseAction b0 o.actName) o.actDur) := by
        rw [List.getElem?_set]
        simp [hjlt]
      have he' : (b0.stage = Stage.hatchling ∨ b0.stage = Stage.adult) ∧
          b0.action = none := by
        have := he
        unfold eligible at this
        simp only [Bool.and_eq_true, Bool.or_eq_true, beq_iff_eq,
          Option.isNone_iff_eq_none] at this
        exact this
      refine ⟨b0, b0.start_action (chooseAction b0 o.actName) o.actDur, hj, hset, ?_,
        he'.2, ?_, ?_⟩
      · rcases he'.1 with hst | hst <;> rw [hst] <;> intro hcon <;> cases hcon
      · intro hst
        rcases chooseAction_hatchling hst o.actName with hc | hc <;>
          rw [show (b0.start_action (chooseAction b0 o.actName) o.actDur).action =
            some (chooseAction b0 o.actName) from rfl, hc]
        · exact Or.inl rfl
        · exact Or.inr rfl
      · rw [show (b0.start_action (chooseAction b0 o.actName) o.actDur).action =
          some (chooseAction b0 o.actName) from rfl]
        rcases chooseAction_mem b0 o.actName with hc | hc | hc | hc <;> rw [hc]
        · exact Or.inl rfl
        · exact Or.inr (Or.inl rfl)
        · exact Or.inr (Or.inr (Or.inl rfl))
        · exact Or.inr (Or.inr (Or.inr rfl))
    · rw [List.getElem?_set_ne hij] at hch
      exact absurd rfl hch

/-- A concrete idle hatchling bird. -/
def idleHatchling : Bird :=
  { freshBird SlotName.front_left SLOT_FRONT_LEFT 50 80 with stage := Stage.hatchling }

/-- Witness: action_eligibility where the trigger starts an action on a
lone idle hatchling. -/
theorem action_eligibility_witness :
    ∃ b b', ([idleHatchling])[0]? = some b ∧
      (tryTriggerAction oA [idleHatchling])[0]? = some b' ∧
      b.stage ≠ Stage.egg ∧ b.action = none ∧
      (b.stage = Stage.hatchling →
        b'.action = some ActionName.hop ∨ b'.action = some ActionName.shake) ∧
      (b'.action = some ActionName.drink ∨ b'.action = some ActionName.preen ∨
        b'.action = some ActionName.hop ∨ b'.action = some ActionName.shake) :=
  action_eligibility oA [idleHatchling] 0 (by decide)

/-- C5: if, after the per-bird advance pass of the step, the population
is below 4 and contains no adult, the tick leaves spawn_timer at 0 and
does not add any bird; hence repeated ticks under that sustained
condition never accumulate spawn progress and never spawn. -/
theorem no_spawn_without_adult (o : Oracle) (s : AviarySim)
    (hlen : (s.birds.map Bird.advance).length < 4)
    (hnoad : ∀ b ∈ s.birds.map Bird.advance, b.stage ≠ Stage.adult) :
    (tick_once o s).1.spawn_timer = 0 ∧
    (tick_once o s).1.birds.length = s.birds.length := by
  have h1 := tickDay_fields s
  set s1 := tickDay s with hs1
  set s2 : AviarySim := { s1 with birds := s1.birds.map Bird.advance } with hs2
  set a := adultCount s2.birds with ha
  have hb2 : s2.birds = s.birds.map Bird.advance := by
    show s1.birds.map Bird.advance = s.birds.map Bird.advance
    rw [h1.1]
  have hl2 : s2.birds.length < 4 := by rw [hb2]; exact hlen
  have ha0 : a = 0 := by
    rw [ha]
    unfold adultCount
    rw [List.countP_eq_zero]
    intro b hb
    rw [hb2] at hb
    simpa using hnoad b hb
  have hsp : spawnPhase o a s2 = { s2 with spawn_timer := 0 } := by
    unfold spawnPhase
    rw [if_pos hl2, if_neg (by omega)]
  have key : (tick_once o s).1 =
      { actionPhase o (resetPhase o a (spawnPhase o a s2)).1 with just_reset := false } := rfl
  rw [key, hsp]
  have hrc : resetPhase o a { s2 with spawn_timer := 0 } =
      ({ s2 with spawn_timer := 0, reset_timer := 0 }, false) := by
    unfold resetPhase
    rw [if_neg ?hcond]
    case hcond =>
      rintro ⟨hc1, -⟩
      have hc1' : s2.birds.length = 4 := hc1
      omega
  rw [hrc]
  constructor
  · show (actionPhase o { s2 with spawn_timer := 0, reset_timer := 0 }).spawn_timer = 0
    rw [(actionPhase_fields o _).2.2.2.1]
  · show (actionPhase o { s2 with spawn_timer := 0, reset_timer := 0 }).birds.length =
      s.birds.length
    rw [actionPhase_length]
    show s2.birds.length = s.birds.length
    rw [hb2, List.length_map]

/-- Witness: no_spawn_without_adult at the constructed single-egg
state. -/
theorem no_spawn_without_adult_witness :
    (tick_once oA (AviarySim.mk0 oA)).1.spawn_timer = 0 ∧
    (tick_once oA (AviarySim.mk0 oA)).1.birds.length = (AviarySim.mk0 oA).birds.length :=
  no_spawn_without_adult oA (AviarySim.mk0 oA) (by decide) (by decide)

/-- C2 (amended): over reachable states, a tick triggers a full season
reset (season incremented, reset_season run so tick = 0, day = 1 and
population 1, and true returned) exactly when, immediately prior to the
step, the population is 4, all four birds are adult and reset_timer is
one tick below RESET_DELAY; and every tick in which the joint condition
evaluated after the per-bird advance pass (population 4 and all four
adult after advancing) is false ends with reset_timer = 0. -/
theorem season_reset_gating {s : AviarySim} (o : Oracle)
    (hr : Reachable s) (ho : o.valid) :
    ((tick_once o s).1.season = s.season + 1 ↔
      (s.birds.length = 4 ∧ (∀ b ∈ s.birds, b.stage = Stage.adult) ∧
        s.reset_timer + 1 = RESET_DELAY)) ∧
    ((tick_once o s).1.season = s.season + 1 →
      (tick_once o s).2 = true ∧ (tick_once o s).1.tick = 0 ∧
      (tick_once o s).1.day = 1 ∧ (tick_once o s).1.birds.length = 1) ∧
    (¬ ((s.birds.map Bird.advance).length = 4 ∧
        ∀ b ∈ s.birds.map Bird.advance, b.stage = Stage.adult) →
      (tick_once o s).1.reset_timer = 0) := by
  obtain ⟨hnd, hok, hrlt, hrz⟩ := reachable_inv hr
  have hD : RESET_DELAY = 55 := rfl
  have h1 := tickDay_fields s
  set s1 := tickDay s with hs1
  set s2 : AviarySim := { s1 with birds := s1.birds.map Bird.advance } with hs2
  set a := adultCount s2.birds with ha
  set s3 := spawnPhase o a s2 with hs3
  have h3f := spawnPhase_fields o a s2
  have hb2 : s2.birds = s.birds.map Bird.advance := by
    show s1.birds.map Bird.advance = s.birds.map Bird.advance
    rw [h1.1]
  have hrt3 : s3.reset_timer = s.reset_timer := by
    have e2 : s2.reset_timer = s.reset_timer := h1.2.2.2.1
    rw [h3f.2.2.2.1, e2]
  have hs3season : s3.season = s.season := by
    rw [h3f.1]
    exact h1.2.1
  have hC'C : ((s.birds.map Bird.advance).length = 4 ∧
      (∀ b ∈ s.birds.map Bird.advance, b.stage = Stage.adult)) →
      (s3.birds.length = 4 ∧ a = 4) := by
    rintro ⟨hl, hall⟩
    have hl2 : s2.birds.length = 4 := by rw [hb2]; exact hl
    have hall2 : ∀ b ∈ s2.birds, b.stage = Stage.adult := by
      rw [hb2]; exact hall
    have ha4 : a = 4 := by
      rw [ha, adultCount_of_all_adult hall2, hl2]
    have hs3b : s3.birds = s2.birds := by
      rw [hs3]
      show (spawnPhase o a s2).birds = s2.birds
      unfold spawnPhase
      rw [if_neg (by omega)]
    exact ⟨by rw [hs3b]; exact hl2, ha4⟩
  have hCC' : (s3.birds.length = 4 ∧ a = 4) →
      ((s.birds.map Bird.advance).length = 4 ∧
        (∀ b ∈ s.birds.map Bird.advance, b.stage = Stage.adult)) := by
    rintro ⟨hl3, ha4⟩
    rcases spawnPhase_birds o a s2 with h | ⟨name, coord, hn, h⟩
    · have hb3 : s3.birds = s2.birds := by rw [hs3]; exact h
      have hl2 : s2.birds.length = 4 := by rw [← hb3]; exact hl3
      have hall2 : ∀ b ∈ s2.birds, b.stage = Stage.adult := by
        apply adultCount_eq_length
        rw [← ha, ha4, hl2]
      exact ⟨by rw [← hb2]; exact hl2, by rw [← hb2]; exact hall2⟩
    · exfalso
      have hb3 : s3.birds = s2.birds ++ [freshBird name coord o.spawnHatch o.spawnGrow] := by
        rw [hs3]; exact h
      have hlen3 : s3.birds.length = s2.birds.length + 1 := by
        rw [hb3]; simp
      have hle : a ≤ s2.birds.length := by
        rw [ha]
        unfold adultCount
        exact List.countP_le_length _
      omega
  have hadv_all : (∀ b ∈ s.birds, b.stage = Stage.adult) →
      ∀ b ∈ s.birds.map Bird.advance, b.stage = Stage.adult := by
    intro hall b hb
    rcases List.mem_map.mp hb with ⟨b0, hb0, rfl⟩
    exact advance_adult (hall b0 hb0)
  have hlen_adv : (s.birds.map Bird.advance).length = s.birds.length :=
    List.length_map _ _
  have key1 : (tick_once o s).1 =
      { actionPhase o (resetPhase o a s3).1 with just_reset := false } := rfl
  have key2 : (tick_once o s).2 =
      ((resetPhase o a s3).2 || (actionPhase o (resetPhase o a s3).1).just_reset) := rfl
  rcases resetPhase_cases o a s3 with ⟨hc, hre⟩ | ⟨hc, hlt2, hre⟩ | ⟨hc, hge, hre⟩
  · have hpost_season : (tick_once o s).1.season = s.season := by
      rw [key1, hre]
      show (actionPhase o { s3 with reset_timer := 0 }).season = s.season
      rw [(actionPhase_fields o _).1]
      exact hs3season
    refine ⟨⟨?_, ?_⟩, ?_, ?_⟩
    · intro hcontra
      rw [hpost_season] at hcontra
      exact absurd hcontra (by omega)
    · rintro ⟨hl4, hall, hrt⟩
      exact absurd (hC'C ⟨by rw [hlen_adv]; exact hl4, hadv_all hall⟩) hc
    · intro hcontra
      rw [hpost_season] at hcontra
      exact absurd hcontra (by omega)
    · intro hnc
      rw [key1, hre]
      show (actionPhase o { s3 with reset_timer := 0 }).reset_timer = 0
      rw [(actionPhase_fields o _).2.2.2.2.1]
  · have hpost_season : (tick_once o s).1.season = s.season := by
      rw [key1, hre]
      show (actionPhase o { s3 with reset_timer := s3.reset_timer + 1 }).season = s.season
      rw [(actionPhase_fields o _).1]
      exact hs3season
    refine ⟨⟨?_, ?_⟩, ?_, ?_⟩
    · intro hcontra
      rw [hpost_season] at hcontra
      exact absurd hcontra (by omega)
    · rintro ⟨hl4, hall, hrt⟩
      exfalso
      rw [hrt3] at hlt2
      omega
    · intro hcontra
      rw [hpost_season] at hcontra
      exact absurd hcontra (by omega)
    · intro hnc
      exact absurd (hCC' hc) hnc
  · have hr1eq : (resetPhase o a s3).1 =
        reset_season o { s3 with season := s3.season + 1, reset_timer := s3.reset_timer + 1 } := by
      rw [hre]
    have hpost : (tick_once o s).1 =
        { actionPhase o (reset_season o
          { s3 with season := s3.season + 1, reset_timer := s3.reset_timer + 1 }) with
          just_reset := false } := by
      rw [key1, hr1eq]
    have hseason5 : (tick_once o s).1.season = s.season + 1 := by
      rw [hpost]
      show (actionPhase o _).season = s.season + 1
      rw [(actionPhase_fields o _).1, reset_season_eq]
      show s3.season + 1 = s.season + 1
      rw [hs3season]
    refine ⟨⟨?_, ?_⟩, ?_, ?_⟩
    · intro _
      have hrtne : s.reset_timer ≠ 0 := by
        rw [hrt3] at hge
        rw [hD] at hge hrlt
        omega
      obtain ⟨hl4, hall⟩ := hrz hrtne
      refine ⟨hl4, hall, ?_⟩
      rw [hrt3] at hge
      rw [hD] at hge hrlt ⊢
      omega
    · intro _
      exact hseason5
    · intro _
      refine ⟨?_, ?_, ?_, ?_⟩
      · rw [key2, hre]
        show (true || _) = true
        rw [Bool.true_or]
      · rw [hpost]
        show (actionPhase o _).tick = 0
        rw [(actionPhase_fields o _).2.2.1, reset_season_eq]
      · rw [hpost]
        show (actionPhase o _).day = 1
        rw [(actionPhase_fields o _).2.1, reset_season_eq]
      · rw [hpost]
        show (actionPhase o _).birds.length = 1
        rw [actionPhase_length, reset_season_eq]
        rfl
    · intro hnc
      exact absurd (hCC' hc) hnc

/-- Witness: season_reset_gating at the constructed state, where no
reset fires and the advanced population is a single egg. -/
theorem season_reset_gating_witness :
    (tick_once oA (AviarySim.mk0 oA)).1.reset_timer = 0 :=
  (season_reset_gating oA (Reachable.mk0 oA (by decide)) (by decide)).2.2 (by decide)

theorem runN_succ (n : Nat) : runN (n + 1) = (tick_once oA (runN n)).1 := by
  unfold runN
  rw [Function.iterate_succ_apply']

theorem reachable_runN (n : Nat) : Reachable (runN n) := by
  induction n with
  | zero => exact Reachable.mk0 oA (by decide)
  | succ k ih =>
    rw [runN_succ]
    exact Reachable.step _ oA (by decide) ih

/-- Concrete run state used to chunk the counterexample evaluation. -/
def st50 : AviarySim :=
  { season := 1,
    day := 6,
    tick := 50,
    spawn_timer := 0,
    reset_timer := 0,
    birds := [{ slot_name := SlotName.front_left,
                slot := (168, 236),
                stage := Stage.hatchling,
                age := 0,
                hatch_ticks := 50,
                grow_ticks := 80,
                action := none,
                action_timer := 0,
                action_duration := 0 }],
    just_reset := false,
    next_action := 2350 }

/-- Concrete run state used to chunk the counterexample evaluation. -/
def st100 : AviarySim :=
  { season := 1,
    day := 11,
    tick := 100,
    spawn_timer := 0,
    reset_timer := 0,
    birds := [{ slot_name := SlotName.front_left,
                slot := (168, 236),
                stage := Stage.hatchling,
                age := 50,
                hatch_ticks := 50,
                grow_ticks := 80,
                action := none,
                action_timer := 0,
                action_duration := 0 }],
    just_reset := false,
    next_action := 2300 }

/-- Concrete run state used to chunk the counterexample evaluation. -/
def st150 : AviarySim :=
  { season := 1,
    day := 16,
    tick := 150,
    spawn_timer := 21,
    reset_timer := 0,
    birds := [{ slot_name := SlotName.front_left,
                slot := (168, 236),
                stage := Stage.adult,
                age := 20,
                hatch_ticks := 50,
                grow_ticks := 80,
                action := none,
                action_timer := 0,
                action_duration := 0 }],
    just_reset := false,
    next_action := 2250 }

/-- Concrete run state used to chunk the counterexample evaluation. -/
def st200 : AviarySim :=
  { season := 1,
    day := 21,
    tick := 200,
    spawn_timer := 1,
    reset_timer := 0,
    birds := [{ slot_name := SlotName.front_left,
                slot := (168, 236),
                stage := Stage.adult,
                age := 70,
                hatch_ticks := 50,
                grow_ticks := 80,
                action := none,
                action_timer := 0,
                action_duration := 0 },
              { slot_name := SlotName.front_right,
                slot := (224, 236),
                stage := Stage.egg,
                age := 36,
                hatch_ticks := 50,
                grow_ticks := 80,
                action := none,
                action_timer := 0,
                action_duration := 0 },
              { slot_name := SlotName.back_left,
                slot := (120, 184),
                stage := Stage.egg,
                age := 1,
                hatch_ticks := 50,
                grow_ticks := 80,
                action := none,
                action_timer := 0,
                action_duration := 0 }],
    just_reset := false,
    next_action := 2200 }

/-- Concrete run state used to chunk the counterexample evaluation. -/
def st250 : AviarySim :=
  { season := 1,
    day := 26,
    tick := 250,
    spawn_timer := 0,
    reset_timer := 0,
    birds := [{ slot_name := SlotName.front_left,
                slot := (168, 236),
                stage := Stage.adult,
                age := 120,
                hatch_ticks := 50,
                grow_ticks := 80,
                action := none,
                action_timer := 0,
                action_duration := 0 },
              { slot_name := SlotName.front_right,
                slot := (224, 236),
                stage := Stage.hatchling,
                age := 36,
                hatch_ticks := 50,
                grow_ticks := 80,
                action := none,
                action_timer := 0,
                action_duration := 0 },
              { slot_name := SlotName.back_left,
                slot := (120, 184),
                stage := Stage.hatchling,
                age := 1,
                hatch_ticks := 50,
                grow_ticks := 80,
                action := none,
                action_timer := 0,
                action_duration := 0 },
              { slot_name := SlotName.back_right,
                slot := (264, 184),
                stage := Stage.egg,
                age := 16,
                hatch_ticks := 50,
                grow_ticks := 80,
                action := none,
                action_timer := 0,
                action_duration := 0 }],
    just_reset := false,
    next_action := 2150 }

/-- Concrete run state used to chunk the counterexample evaluation. -/
def st300 : AviarySim :=
  { season := 1,
    day := 31,
    tick := 300,
    spawn_timer := 0,
    reset_timer := 0,
    birds := [{ slot_name := SlotName.front_left,
                slot := (168, 236),
                stage := Stage.adult,
                age := 170,
                hatch_ticks := 50,
                grow_ticks := 80,
                action := none,
                action_timer := 0,
                action_duration := 0 },
              { slot_name := SlotName.front_right,
                slot := (224, 236),
                stage := Stage.adult,
                age := 6,
                hatch_ticks := 50,
                grow_ticks := 80,
                action := none,
                action_timer := 0,
                action_duration := 0 },
              { slot_name := SlotName.back_left,
                slot := (120, 184),
                stage := Stage.hatchling,
                age := 51,
                hatch_ticks := 50,
                grow_ticks := 80,
                action := none,
                action_timer := 0,
                action_duration := 0 },
              { slot_name := SlotName.back_right,
                slot := (264, 184),
                stage := Stage.hatchling,
                age := 16,
                hatch_ticks := 50,
                grow_ticks := 80,
                action := none,
                action_timer := 0,
                action_duration := 0 }],
    just_reset := false,
    next_action := 2100 }

/-- Concrete run state used to chunk the counterexample evaluation. -/
def st350 : AviarySim :=
  { season := 1,
    day := 36,
    tick := 350,
    spawn_timer := 0,
    reset_timer := 0,
    birds := [{ slot_name := SlotName.front_left,
                slot := (168, 236),
                stage := Stage.adult,
                age := 220,
                hatch_ticks := 50,
                grow_ticks := 80,
                action := none,
                action_timer := 0,
                action_duration := 0 },
              { slot_name := SlotName.front_right,
                slot := (224, 236),
                stage := Stage.adult,
                age := 56,
                hatch_ticks := 50,
                grow_ticks := 80,
                action := none,
                action_timer := 0,
                action_duration := 0 },
              { slot_name := SlotName.back_left,
                slot := (120, 184),
                stage := Stage.adult,
                age := 21,
                hatch_ticks := 50,
                grow_ticks := 80,
                action := none,
                action_timer := 0,
                action_duration := 0 },
              { slot_name := SlotName.back_right,
                slot := (264, 184),
                stage := Stage.hatchling,
                age := 66,
                hatch_ticks := 50,
                grow_ticks := 80,
                action := none,
                action_timer := 0,
                action_duration := 0 }],
    just_reset := false,
    next_action := 2050 }

/-- Concrete run state used to chunk the counterexample evaluation. -/
def st363 : AviarySim :=
  { season := 1,
    day := 37,
    tick := 363,
    spawn_timer := 0,
    reset_timer := 0,
    birds := [{ slot_name := SlotName.front_left,
                slot := (168, 236),
                stage := Stage.adult,
                age := 233,
                hatch_ticks := 50,
                grow_ticks := 80,
                action := none,
                action_timer := 0,
                action_duration := 0 },
              { slot_name := SlotName.front_right,
                slot := (224, 236),
                stage := Stage.adult,
                age := 69,
                hatch_ticks := 50,
                grow_ticks := 80,
                action := none,
                action_timer := 0,
                action_duration := 0 },
              { slot_name := SlotName.back_left,
                slot := (120, 184),
                stage := Stage.adult,
                age := 34,
                hatch_ticks := 50,
                grow_ticks := 80,
                action := none,
                action_timer := 0,
                action_duration := 0 },
              { slot_name := SlotName.back_right,
                slot := (264, 184),
                stage := Stage.hatchling,
                age := 79,
                hatch_ticks := 50,
                grow_ticks := 80,
                action := none,
                action_timer := 0,
                action_duration := 0 }],
    just_reset := false,
    next_action := 2037 }

theorem runN_add (m n : Nat) :
    runN (m + n) = (fun s => (tick_once oA s).1)^[n] (runN m) := by
  unfold runN
  rw [Nat.add_comm, Function.iterate_add_apply]

set_option maxRecDepth 20000 in
theorem run50_eq : runN 50 = st50 := by decide

set_option maxRecDepth 20000 in
theorem run100_eq : runN 100 = st100 := by
  have h : runN 100 = (fun s => (tick_once oA s).1)^[50] st50 := by
    rw [show (100 : Nat) = 50 + 50 from rfl, runN_add, run50_eq]
  rw [h]
  decide

set_option maxRecDepth 20000 in
theorem run150_eq : runN 150 = st150 := by
  have h : runN 150 = (fun s => (tick_once oA s).1)^[50] st100 := by
    rw [show (150 : Nat) = 100 + 50 from rfl, runN_add, run100_eq]
  rw [h]
  decide

set_option maxRecDepth 20000 in
theorem run200_eq : runN 200 = st200 := by
  have h : runN 200 = (fun s => (tick_once oA s).1)^[50] st150 := by
    rw [show (200 : Nat) = 150 + 50 from rfl, runN_add, run150_eq]
  rw [h]
  decide

set_option maxRecDepth 20000 in
theorem run250_eq : runN 250 = st250 := by
  have h : runN 250 = (fun s => (tick_once oA s).1)^[50] st200 := by
    rw [show (250 : Nat) = 200 + 50 from rfl, runN_add, run200_eq]
  rw [h]
  decide

set_option maxRecDepth 20000 in
theorem run300_eq : runN 300 = st300 := by
  have h : runN 300 = (fun s => (tick_once oA s).1)^[50] st250 := by
    rw [show (300 : Nat) = 250 + 50 from rfl, runN_add, run250_eq]
  rw [h]
  decide

set_option maxRecDepth 20000 in
theorem run350_eq : runN 350 = st350 := by
  have h : runN 350 = (fun s => (tick_once oA s).1)^[50] st300 := by
    rw [show (350 : Nat) = 300 + 50 from rfl, runN_add, run300_eq]
  rw [h]
  decide

set_option maxRecDepth 20000 in
theorem run363_eq : runN 363 = st363 := by
  have h : runN 363 = (fun s => (tick_once oA s).1)^[13] st350 := by
    rw [show (363 : Nat) = 350 + 13 from rfl, runN_add, run350_eq]
  rw [h]
  decide

/-- Counterexample to the literal C2: after 363 ticks of a concrete valid
run the population is 4 but one bird is still a hatchling immediately
prior to the step, so the joint condition of the claim is false, yet the
next tick_once ends with reset_timer = 1, not 0 — the code evaluates the
gating condition after the per-bird advance pass, so the tick in which
the fourth bird matures already increments the timer. -/
theorem season_reset_gating_cex :
    Reachable (runN 363) ∧
    ¬ ((runN 363).birds.length = 4 ∧ ∀ b ∈ (runN 363).birds, b.stage = Stage.adult) ∧
    (tick_once oA (runN 363)).1.reset_timer = 1 :=
  ⟨reachable_runN 363, by rw [run363_eq]; decide, by rw [run363_eq]; decide⟩

/-- Witness: reset_completeness instantiated at the fixed oracle and a
concrete state. -/
theorem reset_completeness_witness :
    (reset_season oA fullState).birds.length = 1 ∧
    (reset_season oA fullState).tick = 0 ∧ (reset_season oA fullState).day = 1 ∧
    (reset_season oA fullState).spawn_timer = 0 ∧
    (reset_season oA fullState).reset_timer = 0 :=
  ⟨(reset_completeness oA fullState).1.1,
   (reset_completeness oA fullState).1.2.2.1,
   (reset_completeness oA fullState).1.2.2.2.1,
   (reset_completeness oA fullState).1.2.2.2.2.1,
   (reset_completeness oA fullState).1.2.2.2.2.2⟩

/-- Witness: slot_allocator_spec at the fully occupied bird list. -/
theorem slot_allocator_spec_witness : next_slot fullState.birds = none :=
  (slot_allocator_spec fullState.birds).2.mpr (by decide)
